import Mathlib

/-!
Verification of the datamerge-mcp server core against its specification.

The development shallowly embeds the parts of the TypeScript source that the
claims concern:

* the record-normalization functions `mapCompanyRecord` of the two client
  revisions (`src/datamerge-client.ts` and the revised client in
  `src/unnamed/part_002`);
* the async job poller of the `start_company_enrichment_and_wait` tool of the
  streamable HTTP server (both revisions share this loop verbatim);
* the session store of `DataMergeMCPStreamable` (`transports`, `clients`,
  `apiKeys` maps) with the operations `configure_datamerge`,
  `getClientForSession`, `tryConfigureClientFromAuthHeader` (both revisions)
  and the `transport.onclose` cleanup handler;
* the request-issuing skeleton of `getCompanyEnrichmentResult`.

Modelling conventions:

* JavaScript values appearing in loosely-typed company records are modelled by
  `JsVal`.  Raw records come from `JSON.parse` (axios response bodies), so a
  field is never `undefined`-valued; `JsVal.absent` marks an absent key.
  Nested arrays and objects in record fields are not modelled: the code under
  study never inspects their structure, it only passes them through or tests
  their truthiness, and none of the claims concerns them.  JS `NaN` is not
  modelled (JSON cannot produce it); numbers are modelled as integers where
  only `String(...)` rendering of ids matters.
* JS `String.prototype.toLowerCase`/`trim`/`startsWith`/`substring` are
  modelled by `jsToLowerCase`, `jsTrim`, `jsStartsWith`, `jsDropChars`.
  These agree with JS on the ASCII strings all comparisons in the source use.
* Wall-clock time in the poller is modelled in milliseconds as `ℚ` (tool
  arguments are JS numbers); a sleep of `d` ms advances elapsed time by `d`.
-/

namespace DataMerge

/-- Model of a (scalar) JavaScript/JSON value; `absent` marks the value of an absent key (JS `undefined`). -/
inductive JsVal where
  | absent
  | jnull
  | jbool (b : Bool)
  | jnum (n : Int)
  | jstr (s : String)
deriving DecidableEq, Repr

/-- JS truthiness. `0`, `""`, `null`, `undefined` are falsy. -/
def truthy : JsVal → Bool
  | .absent => false
  | .jnull => false
  | .jbool b => b
  | .jnum n => n != 0
  | .jstr s => s != ""

/-- JS nullish test (`== null`): true exactly for `null` and `undefined`. -/
def nullish : JsVal → Bool
  | .absent => true
  | .jnull => true
  | _ => false

/-- JS `a || b`: first operand when truthy, otherwise second. -/
def jsOr (a b : JsVal) : JsVal := if truthy a then a else b

/-- JS `a ?? b`: first operand when non-nullish, otherwise second. -/
def jsCoalesce (a b : JsVal) : JsVal := if nullish a then b else a

/-- JS strict equality of a value against a string literal (`v === "s"`). -/
def strictEqStr (v : JsVal) (s : String) : Bool :=
  match v with
  | .jstr t => t == s
  | _ => false

/-- JS `String(v)` conversion for the scalar values of the model. -/
def jsToString : JsVal → String
  | .absent => "undefined"
  | .jnull => "null"
  | .jbool true => "true"
  | .jbool false => "false"
  | .jnum n => toString n
  | .jstr s => s

/-- A raw company record: a JSON object viewed as a total map from keys to
values, `JsVal.absent` meaning the key is absent (its value is JS `undefined`). -/
def JsRecord := String → JsVal

/-- The `base` object computed by `mapCompanyRecord` in the revised client
(`src/unnamed/part_002` lines 82-101): the normalized convenience fields.
The `id` chain there is `raw.record_id || raw.id || raw.datamerge_id` for the
null test and `raw.record_id ?? raw.id ?? raw.datamerge_id` inside
`String(...)`. -/
def mapCompanyRecordBase (raw : JsRecord) : JsRecord := fun k =>
  if k = "id" then
    if nullish (jsOr (raw "record_id") (jsOr (raw "id") (raw "datamerge_id"))) then
      .jstr ""
    else
      .jstr (jsToString (jsCoalesce (raw "record_id")
        (jsCoalesce (raw "id") (raw "datamerge_id"))))
  else if k = "name" then
    jsCoalesce
      (jsOr (raw "display_name") (jsOr (raw "legal_name")
        (jsOr (raw "name") (jsOr (raw "domain") (.jstr "Unknown")))))
      (.jstr "Unknown")
  else if k = "domain" then jsCoalesce (raw "domain") .jnull
  else if k = "website_url" then jsCoalesce (raw "website_url") .jnull
  else if k = "country_code" then jsCoalesce (raw "country_code") .jnull
  else if k = "global_ultimate" then jsCoalesce (raw "global_ultimate") .jnull
  else if k = "parent_id" then jsCoalesce (raw "parent_id") .jnull
  else if k = "ultimate_parent_id" then
    jsCoalesce (raw "global_ultimate_id") (jsCoalesce (raw "ultimate_parent_id") .jnull)
  else .absent

/-- The `base` object of the first client revision
(`src/datamerge-client.ts` lines 63-80); its `id` chain has no
`datamerge_id` candidate. -/
def mapCompanyRecordBaseV0 (raw : JsRecord) : JsRecord := fun k =>
  if k = "id" then
    if nullish (jsOr (raw "record_id") (raw "id")) then .jstr ""
    else .jstr (jsToString (jsCoalesce (raw "record_id") (raw "id")))
  else if k = "name" then
    jsCoalesce
      (jsOr (raw "display_name") (jsOr (raw "legal_name")
        (jsOr (raw "name") (jsOr (raw "domain") (.jstr "Unknown")))))
      (.jstr "Unknown")
  else if k = "domain" then jsCoalesce (raw "domain") .jnull
  else if k = "website_url" then jsCoalesce (raw "website_url") .jnull
  else if k = "country_code" then jsCoalesce (raw "country_code") .jnull
  else if k = "global_ultimate" then jsCoalesce (raw "global_ultimate") .jnull
  else if k = "parent_id" then jsCoalesce (raw "parent_id") .jnull
  else if k = "ultimate_parent_id" then
    jsCoalesce (raw "global_ultimate_id") (jsCoalesce (raw "ultimate_parent_id") .jnull)
  else .absent

/-- `hasSubstantialData` of the revised `mapCompanyRecord`
(`src/unnamed/part_002` lines 104-105):
`!!(raw?.legal_name || raw?.display_name || raw?.domain || raw?.address1 ||
raw?.national_id)`. -/
def hasSubstantialData (raw : JsRecord) : Bool :=
  truthy (raw "legal_name") || truthy (raw "display_name") || truthy (raw "domain") ||
    truthy (raw "address1") || truthy (raw "national_id")

/-- The `spread` object of the revised `mapCompanyRecord`: a copy of `raw`
whose `status` is rewritten to `"success"` when the record has substantial
data but the upstream marked it `"not_found"` or `"no_query_match"`
(`src/unnamed/part_002` lines 103-111). -/
def correctedSpread (raw : JsRecord) : JsRecord := fun k =>
  if k = "status" && hasSubstantialData raw &&
      (strictEqStr (raw "status") "not_found" || strictEqStr (raw "status") "no_query_match") then
    .jstr "success"
  else raw k

/-- JS object spread `{...base, ...spread}`: keys present in `spread`
override `base`. -/
def spreadOver (base spread : JsRecord) : JsRecord := fun k =>
  match spread k with
  | .absent => base k
  | v => v

/-- `mapCompanyRecord` of the revised client (`src/unnamed/part_002` lines
82-116), including the status-correction heuristic. -/
def mapCompanyRecord (raw : JsRecord) : JsRecord :=
  spreadOver (mapCompanyRecordBase raw) (correctedSpread raw)

/-- `mapCompanyRecord` of the first client revision
(`src/datamerge-client.ts` lines 63-86): `{...base, ...(raw ?? {})}` with no
status correction. -/
def mapCompanyRecordV0 (raw : JsRecord) : JsRecord :=
  spreadOver (mapCompanyRecordBaseV0 raw) raw

/-! ## The async job poller of `start_company_enrichment_and_wait` -/

/-- An optional numeric tool argument as the handler observes it: absent,
present but not a number, or a number.  The handler re-checks
`typeof x === 'number'` at runtime, so a non-numeric value behaves like an
absent one. -/
inductive NumArg where
  | missing
  | notNumber
  | num (q : ℚ)
deriving DecidableEq

/-- `pollIntervalMs` (`mcp-server-streamable.ts` lines 242-245):
`typeof poll_interval_seconds === 'number' && poll_interval_seconds > 0 ?
poll_interval_seconds * 1000 : 5000`. -/
def pollIntervalMsOf : NumArg → ℚ
  | .num q => if 0 < q then q * 1000 else 5000
  | _ => 5000

/-- `timeoutMs` (`mcp-server-streamable.ts` lines 247-250). -/
def timeoutMsOf : NumArg → ℚ
  | .num q => if 0 < q then q * 1000 else 60000
  | _ => 60000

/-- The job object of a mapped status response (`mapStatusResponse`): id and
status are always strings (`String(...)`), `results` is always an array of
mapped records. -/
structure JobView where
  id : String
  status : String
  results : List JsRecord

/-- JS `s.toLowerCase()`, character-wise.  `Char.toLower` lowercases the
ASCII range, which is all the status-token comparisons ever inspect. -/
def jsToLowerCase (s : String) : String := ⟨s.data.map Char.toLower⟩

/-- `isCompleted` of the polling loop (`mcp-server-streamable.ts` lines
298-302).  The loop reads `(job.status || '').toLowerCase()`; `s || ''` is
the identity on strings.  `job.results?.[0]` is truthy exactly when the mapped results list
is non-empty, since its elements are objects. -/
def isCompletedJob (job : JobView) : Bool :=
  let status := jsToLowerCase job.status
  status == "completed" || status == "succeeded" || status == "finished" ||
    !job.results.isEmpty

/-- `isFailed` of the polling loop (`mcp-server-streamable.ts` lines
304-308). -/
def isFailedJob (job : JobView) : Bool :=
  let status := jsToLowerCase job.status
  status == "failed" || status == "error" || status == "errored" ||
    status == "cancelled"

/-- How one fetched job is classified by the loop body. -/
inductive JobClass where
  | terminalSuccess
  | terminalFailure
  | inProgress
deriving DecidableEq, Repr

/-- The classification order of the loop body: the `if (isCompleted)` branch
is tested before `if (isFailed)` (`mcp-server-streamable.ts` lines
310-337). -/
def classifyJob (job : JobView) : JobClass :=
  if isCompletedJob job then .terminalSuccess
  else if isFailedJob job then .terminalFailure
  else .inProgress

/-- Result of one upstream call after envelope mapping: either the mapped
error (`success: false`) or the mapped job. -/
inductive ApiFetch where
  | err (msg : String)
  | ok (job : JobView)

/-- The possible returns of the `start_company_enrichment_and_wait` handler.
`timedOut` records the timeout in force and the elapsed time (ms since the
start call) at which the handler returned. -/
inductive WaitOutcome where
  | startError (msg : String)
  | pollError (msg : String)
  | completed (jobId status : String) (results : List JsRecord)
  | failedJob (jobId status : String)
  | timedOut (jobId : String) (timeoutMs elapsedMs : ℚ)

/-- Whether the handler return carries `isError: true`
(the start-failure, poll-failure and job-failure returns do; the completion
and timeout returns do not). -/
def waitIsError : WaitOutcome → Bool
  | .startError _ => true
  | .pollError _ => true
  | .failedJob _ _ => true
  | _ => false

/-- The polling loop (`mcp-server-streamable.ts` lines 273-338), with elapsed
wall-clock time made explicit: at entry to iteration `k` the elapsed time is
`k * intervalMs`; the iteration sleeps `intervalMs` and then fetches, so the
fetch happens at elapsed time `(k + 1) * intervalMs`.  The loop guard is
`Date.now() - startedAt < timeoutMs`.  The `0 < intervalMs` conjunct is a
termination device only: every call site passes a positive interval (see
`pollIntervalMsOf_pos`), so it never changes the modelled behaviour. -/
def pollLoop (fetch : ℚ → ApiFetch) (intervalMs timeoutMs : ℚ) (jobId : String)
    (k : ℕ) : WaitOutcome :=
  if h : (k : ℚ) * intervalMs < timeoutMs ∧ 0 < intervalMs then
    match fetch (((k : ℚ) + 1) * intervalMs) with
    | .err m => .pollError m
    | .ok job =>
      if isCompletedJob job then .completed job.id job.status job.results
      else if isFailedJob job then .failedJob job.id job.status
      else pollLoop fetch intervalMs timeoutMs jobId (k + 1)
  else .timedOut jobId timeoutMs ((k : ℚ) * intervalMs)
termination_by (Int.ceil (timeoutMs / intervalMs)).toNat + 1 - k
decreasing_by
  have hk : (k : ℚ) < timeoutMs / intervalMs := (lt_div_iff₀ h.2).mpr h.1
  have hki : (k : ℤ) < Int.ceil (timeoutMs / intervalMs) :=
    Int.lt_ceil.mpr (by exact_mod_cast hk)
  have hkn : k < (Int.ceil (timeoutMs / intervalMs)).toNat := Int.lt_toNat.mpr hki
  omega

/-- The `start_company_enrichment_and_wait` handler after client resolution
(`mcp-server-streamable.ts` lines 233-351): derive interval and timeout from
the arguments, run the start call, propagate a start failure without polling,
otherwise poll from elapsed time `0`. -/
def start_company_enrichment_and_wait (pollArg timeoutArg : NumArg)
    (start : ApiFetch) (fetch : ℚ → ApiFetch) : WaitOutcome :=
  let intervalMs := pollIntervalMsOf pollArg
  let timeoutMs := timeoutMsOf timeoutArg
  match start with
  | .err m => .startError m
  | .ok job => pollLoop fetch intervalMs timeoutMs job.id 0

/-! ## The session store of `DataMergeMCPStreamable` -/

/-- Configuration of one `DataMergeClient` instance: the credential and the
optional base-URL override (`baseURL: validatedConfig.baseUrl ??
'https://api.datamerge.ai'`).  `DataMergeConfigSchema` requires the key to be
non-empty; all call sites in scope guard this before construction.  The
`z.string().url()` format check on a caller-supplied `baseUrl` is not
modelled; theorems about `configure_datamerge` therefore take
`baseUrl = none`, for which the check is vacuous. -/
structure ClientCfg where
  apiKey : String
  baseUrl : Option String
deriving DecidableEq, Repr

def defaultBaseUrl : String := "https://api.datamerge.ai"

/-- The base URL the axios instance of a client actually uses. -/
def resolvedBaseUrl (c : ClientCfg) : String := c.baseUrl.getD defaultBaseUrl

/-- The per-session mutable state of `DataMergeMCPStreamable`: the
`transports`, `clients` and `apiKeys` maps, each keyed by session id.
A `Map` is modelled as a total function (`transports` only needs membership;
`none` means absent). -/
structure ServerState where
  transports : String → Bool
  clients : String → Option ClientCfg
  apiKeys : String → Option String

def emptyServerState : ServerState :=
  ⟨fun _ => false, fun _ => none, fun _ => none⟩

def setApiKey (st : ServerState) (sid k : String) : ServerState :=
  { st with apiKeys := fun s => if s = sid then some k else st.apiKeys s }

def setClient (st : ServerState) (sid : String) (c : ClientCfg) : ServerState :=
  { st with clients := fun s => if s = sid then some c else st.clients s }

/-- The errors the session-store operations throw. -/
inductive ToolError where
  | sessionRequired
  | apiKeyRequired
  | notConfigured
deriving DecidableEq, Repr

/-- The exact messages thrown by the source. -/
def toolErrorMessage : ToolError → String
  | .sessionRequired => "Session ID is required"
  | .apiKeyRequired =>
      "apiKey is required. Provide it as an argument or set DATAMERGE_API_KEY."
  | .notConfigured =>
      "DataMerge client not configured. Please call configure_datamerge or set DATAMERGE_API_KEY."

/-- The `configure_datamerge` tool handler (`mcp-server-streamable.ts` lines
42-74): `key = apiKey ?? process.env['DATAMERGE_API_KEY']`; `if (!key)`
throws; otherwise the key is remembered and a fresh client is built and
cached for the session.  `env` is the process-wide fallback credential. -/
def configure_datamerge (sessionId apiKey baseUrl env : Option String)
    (st : ServerState) : Except ToolError ServerState :=
  match sessionId with
  | none => .error .sessionRequired
  | some sid =>
    match (match apiKey with | some k => some k | none => env) with
    | none => .error .apiKeyRequired
    | some key =>
      if key = "" then .error .apiKeyRequired
      else .ok (setClient (setApiKey st sid key) sid ⟨key, baseUrl⟩)

/-- The environment-variable tail of `getClientForSession`
(`mcp-server-streamable.ts` lines 549-562): reached when no client is cached
and no (truthy) per-session key is stored. -/
def clientFromEnvFallback (sid : String) (env : Option String) (st : ServerState) :
    Except ToolError (ClientCfg × ServerState) :=
  match env with
  | some e =>
    if e = "" then .error .notConfigured
    else .ok (⟨e, none⟩, setClient st sid ⟨e, none⟩)
  | none => .error .notConfigured

/-- `getClientForSession` (`mcp-server-streamable.ts` lines 526-563): return
the cached client if present; else build one from the remembered session key
if truthy; else from the env fallback if truthy; else throw `NotConfigured`.
Constructed clients are cached.  Returns the resolved client together with
the updated state. -/
def getClientForSession (sessionId env : Option String) (st : ServerState) :
    Except ToolError (ClientCfg × ServerState) :=
  match sessionId with
  | none => .error .sessionRequired
  | some sid =>
    match st.clients sid with
    | some existing => .ok (existing, st)
    | none =>
      match st.apiKeys sid with
      | some k =>
        if k = "" then clientFromEnvFallback sid env st
        else .ok (⟨k, none⟩, setClient st sid ⟨k, none⟩)
      | none => clientFromEnvFallback sid env st

/-- JS `s.startsWith(p)` (exact prefix test on code units; all prefixes in
scope are ASCII, where code units and characters coincide). -/
def jsStartsWith (s p : String) : Bool := p.data.isPrefixOf s.data

/-- JS `s.substring(n)` for the ASCII prefixes in scope. -/
def jsDropChars (n : ℕ) (s : String) : String := ⟨s.data.drop n⟩

/-- JS `s.trim()`: strip leading and trailing whitespace.  `Char.isWhitespace`
covers the whitespace the credentials in scope can carry. -/
def jsTrim (s : String) : String :=
  ⟨((s.data.dropWhile Char.isWhitespace).reverse.dropWhile Char.isWhitespace).reverse⟩

/-- The credential extraction of the revised
`tryConfigureClientFromAuthHeader` (`src/unnamed/part_003` lines 955-963):
accept a `Bearer ` or `Token ` scheme, in that order. -/
def parseAuthHeader (authHeader : Option String) : Option String :=
  match authHeader with
  | some h =>
    if jsStartsWith h "Bearer " then some (jsDropChars 7 h)
    else if jsStartsWith h "Token " then some (jsDropChars 6 h)
    else none
  | none => none

/-- The revised `tryConfigureClientFromAuthHeader` (`src/unnamed/part_003`
lines 947-992): when the extracted key and its trim are truthy, remember the
trimmed key for the session and, if the session has no client yet, build and
cache one from it.  The `new DataMergeClient` call is wrapped in try/catch in
the source but cannot throw here: the trimmed key is non-empty and no
`baseUrl` is supplied. -/
def tryConfigureClientFromAuthHeader (authHeader : Option String) (sid : String)
    (st : ServerState) : ServerState :=
  match parseAuthHeader authHeader with
  | some k =>
    if k ≠ "" ∧ jsTrim k ≠ "" then
      let st1 := setApiKey st sid (jsTrim k)
      match st1.clients sid with
      | none => setClient st1 sid ⟨jsTrim k, none⟩
      | some _ => st1
    else st
  | none => st

/-- The first revision of `tryConfigureClientFromAuthHeader`
(`src/src/mcp-server-streamable.ts` lines 484-524): only the `Token ` scheme
is recognized and the key is stored untrimmed. -/
def tryConfigureClientFromAuthHeaderV0 (authHeader : Option String) (sid : String)
    (st : ServerState) : ServerState :=
  match authHeader with
  | some h =>
    if jsStartsWith h "Token " then
      let k := jsDropChars 6 h
      if k ≠ "" then
        let st1 := setApiKey st sid k
        match st1.clients sid with
        | none => setClient st1 sid ⟨k, none⟩
        | some _ => st1
      else st
    else st
  | none => st

/-- The `transport.onclose` handler (`mcp-server-streamable.ts` lines
623-632): when the closing transport has a (truthy) session id that is in the
`transports` map, delete the transport handle, the cached client and the
stored key for that session. -/
def onTransportClose (sessionId : Option String) (st : ServerState) : ServerState :=
  match sessionId with
  | some sid =>
    if sid ≠ "" ∧ st.transports sid = true then
      { transports := fun s => if s = sid then false else st.transports s,
        clients := fun s => if s = sid then none else st.clients s,
        apiKeys := fun s => if s = sid then none else st.apiKeys s }
    else st
  | none => st

/-! ## `getCompanyEnrichmentResult` request issuance -/

/-- Characters `encodeURIComponent` leaves unescaped (ECMA-262):
alphanumerics and `- _ . ! ~ * ' ( )` (code 39 is the apostrophe). -/
def isUnreservedURIChar (c : Char) : Bool :=
  c.isAlpha || c.isDigit || c == '-' || c == '_' || c == '.' || c == '!' ||
    c == '~' || c == '*' || c.toNat == 39 || c == '(' || c == ')'

/-- Uppercase hexadecimal digit (48 is `0`, 65 is `A`). -/
def hexDigitChar (n : ℕ) : Char :=
  if n < 10 then Char.ofNat (48 + n) else Char.ofNat (55 + n)

def percentEncodeByte (b : ℕ) : String :=
  ⟨['%', hexDigitChar (b / 16), hexDigitChar (b % 16)]⟩

/-- UTF-8 encoding of one code point. -/
def utf8Bytes (c : Char) : List ℕ :=
  let n := c.toNat
  if n < 128 then [n]
  else if n < 2048 then [192 + n / 64, 128 + n % 64]
  else if n < 65536 then [224 + n / 4096, 128 + n / 64 % 64, 128 + n % 64]
  else [240 + n / 262144, 128 + n / 4096 % 64, 128 + n / 64 % 64, 128 + n % 64]

/-- JS `encodeURIComponent`: unreserved characters pass through, every other
character is percent-encoded as its UTF-8 bytes in uppercase hex. -/
def encodeURIComponent (s : String) : String :=
  s.data.foldl
    (fun acc c =>
      if isUnreservedURIChar c then acc.push c
      else acc ++ String.join ((utf8Bytes c).map percentEncodeByte))
    ""

/-- Request trace of one client call: the GET paths issued, and either
completion or the thrown message.  The response-envelope mapping of the
source is independent of the claims about request issuance. -/
structure CallTrace where
  requests : List String
  outcome : Except String Unit

/-- Request-issuing skeleton of `getCompanyEnrichmentResult` in
`src/datamerge-client.ts` lines 215-221: `if (!jobId) throw new
Error('job_id is required')` before any request; otherwise one GET to
`/v1/job/{encodeURIComponent(jobId)}/status`. -/
def getCompanyEnrichmentResult (jobId : String) : CallTrace :=
  if jobId = "" then ⟨[], .error "job_id is required"⟩
  else ⟨["/v1/job/" ++ encodeURIComponent jobId ++ "/status"], .ok ()⟩

/-- The same skeleton in the revised client (`src/unnamed/part_002` lines
282-290), whose status endpoint is
`/v1/company/enrich/{encodeURIComponent(jobId)}/status`. -/
def getCompanyEnrichmentResultV2 (jobId : String) : CallTrace :=
  if jobId = "" then ⟨[], .error "job_id is required"⟩
  else ⟨["/v1/company/enrich/" ++ encodeURIComponent jobId ++ "/status"], .ok ()⟩

/-! ## Concrete fixtures used by witnesses and counterexamples -/

/-- A raw record carrying a legal name but marked `not_found` upstream. -/
def acmeNotFoundRecord : JsRecord := fun k =>
  if k = "legal_name" then .jstr "Acme Inc"
  else if k = "status" then .jstr "not_found"
  else .absent

/-- A raw record with no identifying fields and upstream status
`not_found`. -/
def bareNotFoundRecord : JsRecord := fun k =>
  if k = "status" then .jstr "not_found" else .absent

/-- An empty JSON object. -/
def emptyObjectRecord : JsRecord := fun _ => .absent

/-- A fetched job whose status token is failure-like while its results list
is non-empty. -/
def jobFailedWithResults : JobView := ⟨"job-9", "failed", [emptyObjectRecord]⟩

/-- A raw record carrying an unrecognized extra field. -/
def extraFieldRecord : JsRecord := fun k =>
  if k = "custom_field" then .jstr "kept"
  else if k = "status" then .jstr "queued"
  else .absent

/-- A success-token job with a mixed-case status and no results. -/
def jobCompletedEmpty : JobView := ⟨"job-1", "COMPLETED", []⟩

/-- An in-progress-token job with a non-empty results list. -/
def jobQueuedWithResults : JobView := ⟨"job-2", "queued", [emptyObjectRecord]⟩

/-- A failure-token job with no results. -/
def jobFailedEmpty : JobView := ⟨"job-3", "failed", []⟩

/-- An in-progress-token job with no results. -/
def jobProcessingEmpty : JobView := ⟨"job-4", "processing", []⟩

/-- A status endpoint that always reports an in-progress job. -/
def processingFetch : ℚ → ApiFetch := fun _ => .ok jobProcessingEmpty

/-- The job returned by a successful start call. -/
def startedJob : JobView := ⟨"job-1", "queued", []⟩

/-- A server state whose session `s1` has a remembered credential `A` but no
built client. -/
def sessionAState : ServerState := setApiKey emptyServerState "s1" "A"

/-- A server state whose session `s1` has a live transport, a cached client
and a remembered credential. -/
def liveSessionState : ServerState :=
  ⟨fun s => s == "s1",
   fun s => if s = "s1" then some ⟨"key-1", none⟩ else none,
   fun s => if s = "s1" then some "key-1" else none⟩

/-! ## Helper lemmas -/

theorem isPrefixOf_append_self (l₁ l₂ : List Char) :
    l₁.isPrefixOf (l₁ ++ l₂) = true := by
  induction l₁ with
  | nil => simp [List.isPrefixOf]
  | cons a as ih => simp [List.isPrefixOf, ih]

theorem jsStartsWith_append (p s : String) : jsStartsWith (p ++ s) p = true := by
  show p.data.isPrefixOf (p.data ++ s.data) = true
  exact isPrefixOf_append_self p.data s.data

theorem jsDropChars_append (p s : String) :
    jsDropChars p.data.length (p ++ s) = s := by
  show String.mk (List.drop p.data.length (p.data ++ s.data)) = s
  rw [List.drop_left]

theorem jsDropChars_token (k : String) : jsDropChars 6 ("Token " ++ k) = k :=
  jsDropChars_append "Token " k

theorem jsDropChars_bearer (k : String) : jsDropChars 7 ("Bearer " ++ k) = k :=
  jsDropChars_append "Bearer " k

theorem token_not_bearer (k : String) :
    jsStartsWith ("Token " ++ k) "Bearer " = false := rfl

theorem bearer_not_token (k : String) :
    jsStartsWith ("Bearer " ++ k) "Token " = false := rfl

theorem parseAuthHeader_token (k : String) :
    parseAuthHeader (some ("Token " ++ k)) = some k := by
  have hd : jsDropChars 6 ("Token " ++ k) = k := jsDropChars_append "Token " k
  simp [parseAuthHeader, token_not_bearer, jsStartsWith_append, hd]

theorem parseAuthHeader_bearer (k : String) :
    parseAuthHeader (some ("Bearer " ++ k)) = some k := by
  have hd : jsDropChars 7 ("Bearer " ++ k) = k := jsDropChars_append "Bearer " k
  simp [parseAuthHeader, jsStartsWith_append, hd]

theorem pollIntervalMsOf_pos (a : NumArg) : 0 < pollIntervalMsOf a := by
  cases a with
  | num q =>
    by_cases hq : 0 < q
    · simp only [pollIntervalMsOf, if_pos hq]
      positivity
    · simp only [pollIntervalMsOf, if_neg hq]
      norm_num
  | missing => norm_num [pollIntervalMsOf]
  | notNumber => norm_num [pollIntervalMsOf]

theorem timeoutMsOf_pos (a : NumArg) : 0 < timeoutMsOf a := by
  cases a with
  | num q =>
    by_cases hq : 0 < q
    · simp only [timeoutMsOf, if_pos hq]
      positivity
    · simp only [timeoutMsOf, if_neg hq]
      norm_num
  | missing => norm_num [timeoutMsOf]
  | notNumber => norm_num [timeoutMsOf]

/-! ## Claim C6: the status-correction heuristic -/

/-- C6: for every raw company record, if the record carries substantial
identifying data (a truthy legal_name, display_name, domain, address1 or
national_id) and its upstream status is "not_found" or "no_query_match",
normalization rewrites the status to "success"; a record with none of those
identifying fields and status "not_found" keeps status "not_found". -/
theorem statusCorrectionHeuristic (raw : JsRecord) :
    (hasSubstantialData raw = true →
      (strictEqStr (raw "status") "not_found" = true ∨
        strictEqStr (raw "status") "no_query_match" = true) →
      mapCompanyRecord raw "status" = .jstr "success")
    ∧ (hasSubstantialData raw = false → raw "status" = .jstr "not_found" →
      mapCompanyRecord raw "status" = .jstr "not_found") := by
  constructor
  · intro hs hst
    rcases hst with h | h <;>
      simp [mapCompanyRecord, spreadOver, correctedSpread, hs, h]
  · intro hs hst
    simp [mapCompanyRecord, spreadOver, correctedSpread, hs, hst]

/-- Witness for C6 at the records of the spec's example. -/
theorem statusCorrectionHeuristic_witness :
    mapCompanyRecord acmeNotFoundRecord "status" = .jstr "success"
    ∧ mapCompanyRecord bareNotFoundRecord "status" = .jstr "not_found" :=
  ⟨(statusCorrectionHeuristic acmeNotFoundRecord).1 (by decide) (Or.inl (by decide)),
   (statusCorrectionHeuristic bareNotFoundRecord).2 (by decide) (by decide)⟩

/-! ## Claim C7: passthrough of original fields -/

/-- C7 counterexample: the revised normalization is not a lossless
passthrough — the status-correction heuristic alters the original `status`
field of a record that carries a legal name and upstream status
"not_found". -/
theorem mapCompanyRecordNotLossless :
    acmeNotFoundRecord "status" = .jstr "not_found"
    ∧ mapCompanyRecord acmeNotFoundRecord "status" = .jstr "success"
    ∧ mapCompanyRecord acmeNotFoundRecord "status" ≠ acmeNotFoundRecord "status" :=
  ⟨by decide, by decide, by decide⟩

/-- C7 (amended): normalization preserves every original field value, except
that in the revised client the `status` field is rewritten exactly when the
status-correction heuristic fires; the first client revision is fully
lossless. -/
theorem mapCompanyRecordPassthrough (raw : JsRecord) (k : String) :
    (raw k ≠ .absent → mapCompanyRecordV0 raw k = raw k)
    ∧ (raw k ≠ .absent → k ≠ "status" → mapCompanyRecord raw k = raw k)
    ∧ (raw "status" ≠ .absent →
        (hasSubstantialData raw = true →
          strictEqStr (raw "status") "not_found" = false ∧
            strictEqStr (raw "status") "no_query_match" = false) →
        mapCompanyRecord raw "status" = raw "status") := by
  refine ⟨?_, ?_, ?_⟩
  · intro hk
    cases h : raw k <;> simp_all [mapCompanyRecordV0, spreadOver]
  · intro hk hks
    have hs : correctedSpread raw k = raw k := by
      simp [correctedSpread, hks]
    cases h : raw k <;>
      simp_all [mapCompanyRecord, spreadOver, hs]
  · intro hk hheur
    have hs : correctedSpread raw "status" = raw "status" := by
      by_cases hsub : hasSubstantialData raw = true
      · obtain ⟨h1, h2⟩ := hheur hsub
        simp [correctedSpread, hsub, h1, h2]
      · have hsub2 : hasSubstantialData raw = false := by
          revert hsub; cases hasSubstantialData raw <;> simp
        simp [correctedSpread, hsub2]
    cases h : raw "status" <;> simp_all [mapCompanyRecord, spreadOver, hs]

/-- Witness for C7 (amended) at a record with an extra custom field. -/
theorem mapCompanyRecordPassthrough_witness :
    mapCompanyRecordV0 extraFieldRecord "custom_field" = .jstr "kept"
    ∧ mapCompanyRecord extraFieldRecord "custom_field" = .jstr "kept"
    ∧ mapCompanyRecord extraFieldRecord "status" = .jstr "queued" :=
  ⟨((mapCompanyRecordPassthrough extraFieldRecord "custom_field").1
      (by decide)).trans (by decide),
   ((mapCompanyRecordPassthrough extraFieldRecord "custom_field").2.1
      (by decide) (by decide)).trans (by decide),
   ((mapCompanyRecordPassthrough extraFieldRecord "status").2.2
      (by decide) (by decide)).trans (by decide)⟩

/-! ## Claim C10: enrichment-status request issuance -/

/-- C10: `getCompanyEnrichmentResult` with an empty job id throws
"job_id is required" before any upstream request; for every non-empty job
id, exactly one status request is issued, with the job id URI-encoded into
the path.  Both client revisions behave this way (their endpoint paths
differ). -/
theorem enrichmentResultRequests (jobId : String) :
    (jobId = "" →
      getCompanyEnrichmentResult jobId = ⟨[], .error "job_id is required"⟩
      ∧ getCompanyEnrichmentResultV2 jobId = ⟨[], .error "job_id is required"⟩)
    ∧ (jobId ≠ "" →
      getCompanyEnrichmentResult jobId
        = ⟨["/v1/job/" ++ encodeURIComponent jobId ++ "/status"], .ok ()⟩
      ∧ getCompanyEnrichmentResultV2 jobId
        = ⟨["/v1/company/enrich/" ++ encodeURIComponent jobId ++ "/status"], .ok ()⟩) := by
  constructor <;> intro h <;>
    simp [getCompanyEnrichmentResult, getCompanyEnrichmentResultV2, h]

/-- Witness for C10: the empty id throws without issuing a request, and a
job id containing a space or slash is percent-encoded in the single request
path. -/
theorem enrichmentResultRequests_witness :
    getCompanyEnrichmentResult "" = ⟨[], .error "job_id is required"⟩
    ∧ getCompanyEnrichmentResult "a b" = ⟨["/v1/job/a%20b/status"], .ok ()⟩
    ∧ getCompanyEnrichmentResultV2 "a/b"
        = ⟨["/v1/company/enrich/a%2Fb/status"], .ok ()⟩ := by
  refine ⟨((enrichmentResultRequests "").1 rfl).1, ?_, ?_⟩
  · exact (((enrichmentResultRequests "a b").2 (by decide)).1).trans (by rfl)
  · exact (((enrichmentResultRequests "a/b").2 (by decide)).2).trans (by rfl)

/-! ## Claim C1: job classification in the polling loop -/

/-- C1 counterexample: a job with failure token "failed" and a non-empty
results list is classified terminal-success by the loop (the `isCompleted`
test, which includes result presence, runs first), not terminal-failure as
the claim requires. -/
theorem failedStatusWithResultsIsSuccess :
    jobFailedWithResults.status = "failed"
    ∧ jobFailedWithResults.results ≠ []
    ∧ classifyJob jobFailedWithResults = .terminalSuccess
    ∧ classifyJob jobFailedWithResults ≠ .terminalFailure := by
  refine ⟨rfl, by simp [jobFailedWithResults], by decide, by decide⟩

/-- C1 (amended): a case-insensitive status of "completed", "succeeded" or
"finished" is terminal-success even with empty results; any status with a
non-empty results list is terminal-success (result presence overrides
failure tokens too); a status of "failed", "error", "errored" or "cancelled"
is terminal-failure only when the results list is empty, and the loop then
returns a failure surfacing the job's id and status; any other status with
no results is not terminal. -/
theorem jobClassification (job : JobView) :
    ((jsToLowerCase job.status = "completed" ∨ jsToLowerCase job.status = "succeeded" ∨
        jsToLowerCase job.status = "finished") → classifyJob job = .terminalSuccess)
    ∧ (job.results ≠ [] → classifyJob job = .terminalSuccess)
    ∧ ((jsToLowerCase job.status = "failed" ∨ jsToLowerCase job.status = "error" ∨
        jsToLowerCase job.status = "errored" ∨ jsToLowerCase job.status = "cancelled") →
        job.results = [] → classifyJob job = .terminalFailure)
    ∧ (jsToLowerCase job.status ≠ "completed" → jsToLowerCase job.status ≠ "succeeded" →
        jsToLowerCase job.status ≠ "finished" → jsToLowerCase job.status ≠ "failed" →
        jsToLowerCase job.status ≠ "error" → jsToLowerCase job.status ≠ "errored" →
        jsToLowerCase job.status ≠ "cancelled" → job.results = [] →
        classifyJob job = .inProgress)
    ∧ (∀ (fetch : ℚ → ApiFetch) (i t : ℚ) (jid : String),
        0 < i → 0 < t → fetch i = .ok job →
        (jsToLowerCase job.status = "failed" ∨ jsToLowerCase job.status = "error" ∨
          jsToLowerCase job.status = "errored" ∨ jsToLowerCase job.status = "cancelled") →
        job.results = [] →
        pollLoop fetch i t jid 0 = .failedJob job.id job.status) := by
  refine ⟨?_, ?_, ?_, ?_, ?_⟩
  · intro h
    rcases h with h | h | h <;> simp [classifyJob, isCompletedJob, h]
  · intro h
    simp [classifyJob, isCompletedJob, h]
  · intro h hres
    rcases h with h | h | h | h <;>
      simp [classifyJob, isCompletedJob, isFailedJob, h, hres]
  · intro h1 h2 h3 h4 h5 h6 h7 hres
    simp [classifyJob, isCompletedJob, isFailedJob, h1, h2, h3, h4, h5, h6, h7, hres]
  · intro fetch i t jid hi ht hfetch hstatus hres
    have hC : isCompletedJob job = false := by
      rcases hstatus with h | h | h | h <;> simp [isCompletedJob, h, hres]
    have hF : isFailedJob job = true := by
      rcases hstatus with h | h | h | h <;> simp [isFailedJob, h]
    have hcond : ((0 : ℕ) : ℚ) * i < t ∧ 0 < i := by
      constructor
      · push_cast
        simpa using ht
      · exact hi
    have hone : (((0 : ℕ) : ℚ) + 1) * i = i := by push_cast; ring
    rw [pollLoop, dif_pos hcond, hone, hfetch]
    simp [hC, hF]

/-- Witness for C1 (amended) at the four example jobs of the spec and at a
one-iteration run of the loop. -/
theorem jobClassification_witness :
    classifyJob jobCompletedEmpty = .terminalSuccess
    ∧ classifyJob jobQueuedWithResults = .terminalSuccess
    ∧ classifyJob jobFailedEmpty = .terminalFailure
    ∧ classifyJob jobProcessingEmpty = .inProgress
    ∧ pollLoop (fun _ => .ok jobFailedEmpty) 1000 2000 "job-3" 0
        = .failedJob "job-3" "failed" :=
  ⟨(jobClassification jobCompletedEmpty).1 (Or.inl (by decide)),
   (jobClassification jobQueuedWithResults).2.1 (by simp [jobQueuedWithResults]),
   (jobClassification jobFailedEmpty).2.2.1 (Or.inl (by decide)) rfl,
   (jobClassification jobProcessingEmpty).2.2.2.1 (by decide) (by decide) (by decide)
     (by decide) (by decide) (by decide) (by decide) rfl,
   (jobClassification jobFailedEmpty).2.2.2.2 (fun _ => .ok jobFailedEmpty)
     1000 2000 "job-3" (by norm_num) (by norm_num) rfl (Or.inl (by decide)) rfl⟩

/-! ## Claim C9: poll-interval and timeout defaults -/

/-- C9: when poll_interval_seconds is unspecified, non-numeric, zero or
negative, the derived poll interval is the 5-second (5000 ms) default — in
particular it is always positive, so the poller sleeps between fetches
rather than busy-looping; when timeout_seconds is unspecified or
non-positive, the 60-second (60000 ms) default timeout is used. -/
theorem pollDefaults :
    pollIntervalMsOf .missing = 5000
    ∧ pollIntervalMsOf .notNumber = 5000
    ∧ (∀ q : ℚ, q ≤ 0 → pollIntervalMsOf (.num q) = 5000)
    ∧ timeoutMsOf .missing = 60000
    ∧ timeoutMsOf .notNumber = 60000
    ∧ (∀ q : ℚ, q ≤ 0 → timeoutMsOf (.num q) = 60000)
    ∧ (∀ a : NumArg, 0 < pollIntervalMsOf a) := by
  refine ⟨rfl, rfl, ?_, rfl, rfl, ?_, pollIntervalMsOf_pos⟩
  · intro q hq
    simp [pollIntervalMsOf, not_lt.mpr hq]
  · intro q hq
    simp [timeoutMsOf, not_lt.mpr hq]

/-- Witness for C9 at the invalid values 0 and -3. -/
theorem pollDefaults_witness :
    pollIntervalMsOf (.num 0) = 5000
    ∧ timeoutMsOf (.num (-3)) = 60000
    ∧ 0 < pollIntervalMsOf (.num 0) :=
  ⟨pollDefaults.2.2.1 0 le_rfl,
   pollDefaults.2.2.2.2.2.1 (-3) (by norm_num),
   pollDefaults.2.2.2.2.2.2 (.num 0)⟩

/-! ## Claim C2: the poller times out -/

/-- If every fetch reports a non-terminal job, the loop started at iteration
`k` (elapsed `k * i < t`) returns `timedOut` at an elapsed time `e` with
`t ≤ e < t + i`.  Induction on an upper bound of the remaining iteration
count. -/
theorem pollLoop_nonTerminal_timedOut (fetch : ℚ → ApiFetch) (i t : ℚ)
    (jid : String)
    (hfetch : ∀ e, ∃ job, fetch e = .ok job ∧ isCompletedJob job = false ∧
      isFailedJob job = false)
    (hi : 0 < i) :
    ∀ n k, (Int.ceil (t / i)).toNat + 1 - k ≤ n → (k : ℚ) * i < t →
      ∃ e, pollLoop fetch i t jid k = .timedOut jid t e ∧ t ≤ e ∧ e < t + i := by
  intro n
  induction n with
  | zero =>
    intro k hn hk
    exfalso
    have hk2 : (k : ℚ) < t / i := (lt_div_iff₀ hi).mpr hk
    have hki : (k : ℤ) < Int.ceil (t / i) := Int.lt_ceil.mpr (by exact_mod_cast hk2)
    have hkn : k < (Int.ceil (t / i)).toNat := Int.lt_toNat.mpr hki
    omega
  | succ n ih =>
    intro k hn hk
    obtain ⟨job, hfj, hc, hf⟩ := hfetch (((k : ℚ) + 1) * i)
    have hstep : pollLoop fetch i t jid k = pollLoop fetch i t jid (k + 1) := by
      rw [pollLoop, dif_pos ⟨hk, hi⟩, hfj]
      simp [hc, hf]
    by_cases hk1 : ((k + 1 : ℕ) : ℚ) * i < t
    · have hk2 : (k : ℚ) < t / i := (lt_div_iff₀ hi).mpr hk
      have hki : (k : ℤ) < Int.ceil (t / i) := Int.lt_ceil.mpr (by exact_mod_cast hk2)
      have hkn : k < (Int.ceil (t / i)).toNat := Int.lt_toNat.mpr hki
      obtain ⟨e, he, h1, h2⟩ := ih (k + 1) (by omega) hk1
      exact ⟨e, hstep.trans he, h1, h2⟩
    · refine ⟨((k + 1 : ℕ) : ℚ) * i, ?_, le_of_not_lt hk1, ?_⟩
      · rw [hstep, pollLoop, dif_neg]
        intro hcon
        exact hk1 hcon.1
      · push_cast
        linarith

/-- C2: for every poll interval and timeout argument, if the start call
succeeds and every status fetch succeeds but never reports a terminal
status and never returns results, `start_company_enrichment_and_wait`
terminates, returning at an elapsed time `e` with
`timeout ≤ e < timeout + interval` (with interval 1 s and timeout 2 s this
is 2000 ms ≤ e < 3000 ms: not earlier, not indefinitely); the timed-out
result is not flagged as an error and carries the job identifier. -/
theorem startAndWaitTimesOut (pollArg timeoutArg : NumArg) (job0 : JobView)
    (fetch : ℚ → ApiFetch)
    (hfetch : ∀ e, ∃ job, fetch e = .ok job ∧ isCompletedJob job = false ∧
      isFailedJob job = false) :
    ∃ e : ℚ,
      start_company_enrichment_and_wait pollArg timeoutArg (.ok job0) fetch
        = .timedOut job0.id (timeoutMsOf timeoutArg) e
      ∧ timeoutMsOf timeoutArg ≤ e
      ∧ e < timeoutMsOf timeoutArg + pollIntervalMsOf pollArg
      ∧ waitIsError (.timedOut job0.id (timeoutMsOf timeoutArg) e) = false := by
  have hi : 0 < pollIntervalMsOf pollArg := pollIntervalMsOf_pos pollArg
  have ht : 0 < timeoutMsOf timeoutArg := timeoutMsOf_pos timeoutArg
  have h0 : ((0 : ℕ) : ℚ) * pollIntervalMsOf pollArg < timeoutMsOf timeoutArg := by
    push_cast
    simpa using ht
  obtain ⟨e, he, h1, h2⟩ :=
    pollLoop_nonTerminal_timedOut fetch (pollIntervalMsOf pollArg)
      (timeoutMsOf timeoutArg) job0.id hfetch hi
      ((Int.ceil (timeoutMsOf timeoutArg / pollIntervalMsOf pollArg)).toNat + 1)
      0 le_rfl h0
  exact ⟨e, he, h1, h2, rfl⟩

/-- Witness for C2: poll interval 1 s, timeout 2 s, a status endpoint that
always reports "processing" with no results. -/
theorem startAndWaitTimesOut_witness :
    ∃ e : ℚ,
      start_company_enrichment_and_wait (.num 1) (.num 2) (.ok startedJob)
        processingFetch = .timedOut "job-1" 2000 e
      ∧ 2000 ≤ e ∧ e < 3000 := by
  obtain ⟨e, he, h1, h2, _⟩ :=
    startAndWaitTimesOut (.num 1) (.num 2) startedJob processingFetch
      (fun _ => ⟨jobProcessingEmpty, rfl, by decide, by decide⟩)
  have hT : timeoutMsOf (.num 2) = 2000 := by norm_num [timeoutMsOf]
  have hI : pollIntervalMsOf (.num 1) = 1000 := by norm_num [pollIntervalMsOf]
  rw [hT] at he h1
  rw [hT, hI] at h2
  exact ⟨e, he, h1, by linarith⟩

/-! ## Claim C3: credential precedence -/

/-- C3: credential resolution follows the precedence explicit, then
remembered, then process-wide fallback, first match wins:
`configure_datamerge` with explicit credential C builds and caches the
session's client from C; a tool call on a session without a built client
but with remembered credential A uses A even when the fallback B exists;
with no remembered credential it uses B; and with none of the three
available the lookup fails with NotConfigured instead of building a
client. -/
theorem credentialPrecedence (sid : String) (st : ServerState)
    (env : Option String) (C A B : String) :
    (C ≠ "" →
      ∃ st', configure_datamerge (some sid) (some C) none env st = .ok st'
        ∧ st'.clients sid = some ⟨C, none⟩ ∧ st'.apiKeys sid = some C)
    ∧ (st.clients sid = none → st.apiKeys sid = some A → A ≠ "" →
        ∃ st', getClientForSession (some sid) (some B) st = .ok (⟨A, none⟩, st'))
    ∧ (st.clients sid = none → st.apiKeys sid = none → B ≠ "" →
        ∃ st', getClientForSession (some sid) (some B) st = .ok (⟨B, none⟩, st'))
    ∧ (st.clients sid = none → st.apiKeys sid = none →
        getClientForSession (some sid) none st = .error .notConfigured) := by
  refine ⟨?_, ?_, ?_, ?_⟩
  · intro hC
    refine ⟨setClient (setApiKey st sid C) sid ⟨C, none⟩, ?_, ?_, ?_⟩
    · simp [configure_datamerge, hC]
    · simp [setClient]
    · simp [setClient, setApiKey]
  · intro h1 h2 hA
    exact ⟨setClient st sid ⟨A, none⟩,
      by simp [getClientForSession, h1, h2, hA]⟩
  · intro h1 h2 hB
    exact ⟨setClient st sid ⟨B, none⟩,
      by simp [getClientForSession, clientFromEnvFallback, h1, h2, hB]⟩
  · intro h1 h2
    simp [getClientForSession, clientFromEnvFallback, h1, h2]

/-- Witness for C3 on a session with remembered credential "A", explicit
credential "C", fallback "B", and a second never-configured session. -/
theorem credentialPrecedence_witness :
    (∃ st', configure_datamerge (some "s1") (some "C") none (some "B")
        sessionAState = .ok st'
      ∧ st'.clients "s1" = some ⟨"C", none⟩ ∧ st'.apiKeys "s1" = some "C")
    ∧ (∃ st', getClientForSession (some "s1") (some "B") sessionAState
        = .ok (⟨"A", none⟩, st'))
    ∧ (∃ st', getClientForSession (some "s2") (some "B") sessionAState
        = .ok (⟨"B", none⟩, st'))
    ∧ getClientForSession (some "s2") none sessionAState
        = .error .notConfigured :=
  ⟨(credentialPrecedence "s1" sessionAState (some "B") "C" "A" "B").1 (by decide),
   (credentialPrecedence "s1" sessionAState (some "B") "C" "A" "B").2.1
     rfl (by decide) (by decide),
   (credentialPrecedence "s2" sessionAState (some "B") "C" "A" "B").2.2.1
     rfl (by decide) (by decide),
   (credentialPrecedence "s2" sessionAState none "C" "A" "B").2.2.2
     rfl (by decide)⟩

/-! ## Claim C4: transport closure removes all per-session state -/

/-- C4: when a session's transport closes, the `onclose` handler removes the
transport handle, the cached client and the remembered credential for that
session; afterwards a client lookup for that session behaves as for a
never-configured session — NotConfigured without a fallback credential, and
a client built from the fallback with one. -/
theorem onTransportCloseRemovesState (sid : String) (st : ServerState)
    (hsid : sid ≠ "") (hT : st.transports sid = true) :
    (onTransportClose (some sid) st).transports sid = false
    ∧ (onTransportClose (some sid) st).clients sid = none
    ∧ (onTransportClose (some sid) st).apiKeys sid = none
    ∧ getClientForSession (some sid) none (onTransportClose (some sid) st)
        = .error .notConfigured
    ∧ (∀ b : String, b ≠ "" →
        ∃ st', getClientForSession (some sid) (some b)
          (onTransportClose (some sid) st) = .ok (⟨b, none⟩, st')) := by
  refine ⟨?_, ?_, ?_, ?_, ?_⟩
  · simp [onTransportClose, hsid, hT]
  · simp [onTransportClose, hsid, hT]
  · simp [onTransportClose, hsid, hT]
  · simp [onTransportClose, hsid, hT, getClientForSession, clientFromEnvFallback]
  · intro b hb
    exact ⟨setClient (onTransportClose (some sid) st) sid ⟨b, none⟩, by
      simp [onTransportClose, hsid, hT, getClientForSession,
        clientFromEnvFallback, hb]⟩

/-- Witness for C4 at a live session with a cached client and stored key. -/
theorem onTransportCloseRemovesState_witness :
    (onTransportClose (some "s1") liveSessionState).transports "s1" = false
    ∧ (onTransportClose (some "s1") liveSessionState).clients "s1" = none
    ∧ (onTransportClose (some "s1") liveSessionState).apiKeys "s1" = none
    ∧ getClientForSession (some "s1") none (onTransportClose (some "s1") liveSessionState)
        = .error .notConfigured
    ∧ ∃ st', getClientForSession (some "s1") (some "fallback")
        (onTransportClose (some "s1") liveSessionState) = .ok (⟨"fallback", none⟩, st') :=
  ⟨(onTransportCloseRemovesState "s1" liveSessionState (by decide) rfl).1,
   (onTransportCloseRemovesState "s1" liveSessionState (by decide) rfl).2.1,
   (onTransportCloseRemovesState "s1" liveSessionState (by decide) rfl).2.2.1,
   (onTransportCloseRemovesState "s1" liveSessionState (by decide) rfl).2.2.2.1,
   (onTransportCloseRemovesState "s1" liveSessionState (by decide) rfl).2.2.2.2
     "fallback" (by decide)⟩

/-! ## Claim C8: credential rotation does not rebuild the client -/

/-- C8: a request on a session that already has a built client, carrying an
authorization credential, updates only the session's remembered credential:
the remembered key becomes the newly supplied one while the `clients` and
`transports` maps are unchanged, and a subsequent client lookup still
returns the client built from the earlier credential.  This holds in the
revised handler (shown for the Token scheme, which both revisions accept)
and in the first revision's handler. -/
theorem authRotationKeepsClient (sid k : String) (st : ServerState)
    (c : ClientCfg) (env : Option String)
    (hc : st.clients sid = some c) (hk : jsTrim k ≠ "") :
    ((tryConfigureClientFromAuthHeader (some ("Token " ++ k)) sid st).apiKeys sid
        = some (jsTrim k))
    ∧ ((tryConfigureClientFromAuthHeader (some ("Token " ++ k)) sid st).clients
        = st.clients)
    ∧ ((tryConfigureClientFromAuthHeader (some ("Token " ++ k)) sid st).transports
        = st.transports)
    ∧ getClientForSession (some sid) env
        (tryConfigureClientFromAuthHeader (some ("Token " ++ k)) sid st)
        = .ok (c, tryConfigureClientFromAuthHeader (some ("Token " ++ k)) sid st)
    ∧ ((tryConfigureClientFromAuthHeaderV0 (some ("Token " ++ k)) sid st).apiKeys sid
        = some k)
    ∧ ((tryConfigureClientFromAuthHeaderV0 (some ("Token " ++ k)) sid st).clients
        = st.clients) := by
  have hk0 : k ≠ "" := by
    intro h
    rw [h] at hk
    exact hk rfl
  have hrot : tryConfigureClientFromAuthHeader (some ("Token " ++ k)) sid st
      = setApiKey st sid (jsTrim k) := by
    simp only [tryConfigureClientFromAuthHeader, parseAuthHeader_token]
    rw [if_pos ⟨hk0, hk⟩]
    simp [setApiKey, hc]
  have hrot0 : tryConfigureClientFromAuthHeaderV0 (some ("Token " ++ k)) sid st
      = setApiKey st sid k := by
    simp only [tryConfigureClientFromAuthHeaderV0, jsStartsWith_append,
      jsDropChars_token, if_true]
    rw [if_pos hk0]
    simp [setApiKey, hc]
  refine ⟨?_, ?_, ?_, ?_, ?_, ?_⟩
  · rw [hrot]; simp [setApiKey]
  · rw [hrot]; rfl
  · rw [hrot]; rfl
  · rw [hrot]
    simp [getClientForSession, setApiKey, hc]
  · rw [hrot0]; simp [setApiKey]
  · rw [hrot0]; rfl

/-- Witness for C8: rotating the credential of a configured session. -/
theorem authRotationKeepsClient_witness :
    ((tryConfigureClientFromAuthHeader (some ("Token " ++ "new-key")) "s1"
        liveSessionState).apiKeys "s1" = some "new-key")
    ∧ ((tryConfigureClientFromAuthHeader (some ("Token " ++ "new-key")) "s1"
        liveSessionState).clients = liveSessionState.clients)
    ∧ getClientForSession (some "s1") none
        (tryConfigureClientFromAuthHeader (some ("Token " ++ "new-key")) "s1"
          liveSessionState)
        = .ok (⟨"key-1", none⟩,
            tryConfigureClientFromAuthHeader (some ("Token " ++ "new-key")) "s1"
              liveSessionState) := by
  have h := authRotationKeepsClient "s1" "new-key" liveSessionState
    ⟨"key-1", none⟩ none (by decide) (by decide)
  refine ⟨?_, h.2.1, h.2.2.2.1⟩
  have h1 := h.1
  rwa [show jsTrim "new-key" = "new-key" from rfl] at h1

/-! ## Claim C5: the two authorization header schemes -/

/-- C5 counterexample: in the first server revision
(`src/src/mcp-server-streamable.ts`) a Bearer-scheme header is ignored — no
credential is remembered — while the equivalent Token-scheme header
remembers the credential, so the two schemes are not interchangeable
there. -/
theorem authSchemes_counterexample :
    (tryConfigureClientFromAuthHeaderV0 (some ("Bearer " ++ "abc")) "s1"
        emptyServerState).apiKeys "s1" = none
    ∧ (tryConfigureClientFromAuthHeaderV0 (some ("Token " ++ "abc")) "s1"
        emptyServerState).apiKeys "s1" = some "abc"
    ∧ tryConfigureClientFromAuthHeaderV0 (some ("Bearer " ++ "abc")) "s1"
        emptyServerState
      ≠ tryConfigureClientFromAuthHeaderV0 (some ("Token " ++ "abc")) "s1"
        emptyServerState := by
  refine ⟨rfl, rfl, ?_⟩
  intro h
  have h1 := congrArg (fun stx : ServerState => stx.apiKeys "s1") h
  simp only at h1
  rw [show (tryConfigureClientFromAuthHeaderV0 (some ("Bearer " ++ "abc")) "s1"
        emptyServerState).apiKeys "s1" = none from rfl,
      show (tryConfigureClientFromAuthHeaderV0 (some ("Token " ++ "abc")) "s1"
        emptyServerState).apiKeys "s1" = some "abc" from rfl] at h1
  exact Option.noConfusion h1

/-- C5 (amended): in the revised handler (`src/unnamed/part_003`), for every
secret k the header values "Bearer k" and "Token k" produce identical
session state — the same (trimmed) credential is remembered and the same
client is configured; in the first revision's handler
(`src/src/mcp-server-streamable.ts`) only the Token scheme is recognized,
and a Bearer-scheme request leaves the state unchanged. -/
theorem authSchemes (k sid : String) (st : ServerState) :
    tryConfigureClientFromAuthHeader (some ("Bearer " ++ k)) sid st
      = tryConfigureClientFromAuthHeader (some ("Token " ++ k)) sid st
    ∧ tryConfigureClientFromAuthHeaderV0 (some ("Bearer " ++ k)) sid st = st
    ∧ (jsTrim k ≠ "" →
        (tryConfigureClientFromAuthHeader (some ("Token " ++ k)) sid st).apiKeys sid
          = some (jsTrim k)) := by
  refine ⟨?_, ?_, ?_⟩
  · simp only [tryConfigureClientFromAuthHeader, parseAuthHeader_bearer,
      parseAuthHeader_token]
  · simp only [tryConfigureClientFromAuthHeaderV0, bearer_not_token,
      Bool.false_eq_true, if_false]
  · intro hk
    have hk0 : k ≠ "" := by
      intro h
      rw [h] at hk
      exact hk rfl
    simp only [tryConfigureClientFromAuthHeader, parseAuthHeader_token]
    rw [if_pos ⟨hk0, hk⟩]
    cases h : st.clients sid <;> simp [setApiKey, setClient, h]

/-- Witness for C5 (amended): the secret "abc" under both schemes on a fresh
session. -/
theorem authSchemes_witness :
    tryConfigureClientFromAuthHeader (some ("Bearer " ++ "abc")) "s1"
        emptyServerState
      = tryConfigureClientFromAuthHeader (some ("Token " ++ "abc")) "s1"
        emptyServerState
    ∧ (tryConfigureClientFromAuthHeader (some ("Token " ++ "abc")) "s1"
        emptyServerState).apiKeys "s1" = some "abc" := by
  have h := authSchemes "abc" "s1" emptyServerState
  refine ⟨h.1, ?_⟩
  have h2 := h.2.2 (by decide)
  rwa [show jsTrim "abc" = "abc" from rfl] at h2

end DataMerge
